import Mathlib

/-!
Verification development for the DataForSEO API client
(file src/dataforseo/client.py).

The client is shallowly embedded: the pure pre-network phase of each
operation (validation, keyword sanitization, location grouping, payload
construction, URL/mode selection) is a Lean function producing either an
error or the request that would be issued; the post-network phase
(response normalization) is a Lean function from the decoded response
envelope to either an error or the normalized output, together with the
diagnostics printed along the way.  Python exceptions are modelled with
an explicit error type and `Except`.
-/

set_option autoImplicit false

namespace DataForSEO

/-! ### Keyword sanitizer (client.py, contains_invalid_chars)

The Python function matches the input string against a regular
expression that is an alternation of single-character classes; the
match succeeds exactly when some character of the string falls in one
of the listed Unicode ranges.  The ranges below transcribe the regex
character classes in source order; a singleton class becomes a
degenerate range. -/

def invalidRanges : List (Nat × Nat) :=
  [ (0x0000, 0x001F), (0x0021, 0x0021), (0x0025, 0x0025), (0x0028, 0x002A), (0x002C, 0x002C),
    (0x003B, 0x0040), (0x005C, 0x005C), (0x005E, 0x005E), (0x0060, 0x0060), (0x007B, 0x009F),
    (0x00A1, 0x00A2), (0x00A4, 0x00A9), (0x00AB, 0x00B4), (0x00B6, 0x00B6),
    (0x00B8, 0x00B9), (0x00BB, 0x00BF), (0x00D7, 0x00D7), (0x00F7, 0x00F7), (0x0250, 0x0258),
    (0x025A, 0x02AF), (0x02C2, 0x02C5), (0x02D2, 0x02DF), (0x02E5, 0x02EB),
    (0x02ED, 0x02ED), (0x02EF, 0x02FF), (0x0375, 0x0375), (0x037E, 0x037E), (0x0384, 0x0385),
    (0x0387, 0x0387), (0x03F6, 0x03F6), (0x0482, 0x0482), (0x0488, 0x0489), (0x055A, 0x0560),
    (0x0588, 0x058F), (0x05BE, 0x05BE), (0x05C0, 0x05C0), (0x05C3, 0x05C3), (0x05C6, 0x05C6),
    (0x05EF, 0x05EF),
    (0x05F3, 0x060F), (0x061B, 0x061F), (0x066A, 0x066D), (0x06D4, 0x06D4),
    (0x06DD, 0x06DE), (0x06E9, 0x06E9), (0x06FD, 0x06FE), (0x0700, 0x070F),
    (0x07F6, 0x07F9), (0x07FD, 0x07FF), (0x0830, 0x083E), (0x085E, 0x085E),
    (0x0870, 0x089F), (0x08B5, 0x08B5), (0x08BE, 0x08D3), (0x08E2, 0x08E2), (0x0964, 0x0965),
    (0x0970, 0x0970), (0x09F2, 0x09FB), (0x09FD, 0x09FE), (0x0A76, 0x0A76), (0x0AF0, 0x0AF1),
    (0x0B55, 0x0B55), (0x0B70, 0x0B70), (0x0B72, 0x0B77), (0x0BF0, 0x0BFA), (0x0C04, 0x0C04),
    (0x0C3C, 0x0C3C), (0x0C5D, 0x0C5D), (0x0C77, 0x0C7F), (0x0C84, 0x0C84), (0x0CDD, 0x0CDD),
    (0x0D04, 0x0D04),
    (0x0D4F, 0x0D4F), (0x0D58, 0x0D5E), (0x0D70, 0x0D79), (0x0D81, 0x0D81), (0x0DF4, 0x0DF4),
    (0x0E3F, 0x0E3F), (0x0E4F, 0x0E4F), (0x0E5A, 0x0E5B), (0x0E86, 0x0E86), (0x0E89, 0x0E89),
    (0x0E8C, 0x0E8C),
    (0x0E8E, 0x0E93), (0x0E98, 0x0E98), (0x0EA0, 0x0EA0), (0x0EA8, 0x0EA9), (0x0EAC, 0x0EAC),
    (0x0EBA, 0x0EBA), (0x0F01, 0x0F17), (0x0F1A, 0x0F1F), (0x0F2A, 0x0F34),
    (0x0F36, 0x0F36), (0x0F38, 0x0F38), (0x0F3A, 0x0F3D), (0x0F85, 0x0F85), (0x0FBE, 0x0FC5),
    (0x0FC7, 0x0FDA), (0x104A, 0x104F), (0x109E, 0x109F), (0x10FB, 0x10FB) ]

/-- A character matches the denylist regex iff its code point lies in one
of the transcribed ranges. -/
def charInDenylist (c : Char) : Bool :=
  invalidRanges.any (fun r => decide (r.1 ≤ c.toNat) && decide (c.toNat ≤ r.2))

/-- client.py, `contains_invalid_chars`: `re.search` over an alternation of
single-character classes succeeds iff some character of the input is in
some class. -/
def contains_invalid_chars (input_string : String) : Bool :=
  input_string.data.any charInDenylist

/-! ### JSON-ish values and Python dict semantics

Request payloads in the source are Python dicts built from literals and
`{**defaults, **kwargs}` merges.  A dict is modelled as an association
list in insertion order; merging updates existing keys in place and
appends new keys, with the right operand winning, exactly as Python
dict unpacking does. -/

inductive Value where
  | s (v : String)
  | i (v : Int)
  | strings (v : List String)
  | null
deriving DecidableEq

abbrev Dict : Type := List (String × Value)

/-- Update key `k` in place if present (keeping its position), else append. -/
def dictInsert (d : Dict) (k : String) (v : Value) : Dict :=
  if d.any (fun p => p.1 == k) then
    d.map (fun p => if p.1 == k then (k, v) else p)
  else
    d ++ [(k, v)]

/-- Python `{**a, **b}`: keys of `a` in order, values overridden by `b`,
new keys of `b` appended in order. -/
def dictMerge (a b : Dict) : Dict :=
  b.foldl (fun d p => dictInsert d p.1 p.2) a

/-- Python `None` for an optional string argument, as it appears in a
payload (serialized as null). -/
def optStrVal : Option String → Value
  | none => Value.null
  | some s => Value.s s

/-! ### Errors

`InvalidParameterError` is the typed remote-task error of client.py
(the spec calls it RemoteTaskError); `valueError` models the
`ValueError` raised on a missing query; `keyError` and `indexError`
model the untyped exceptions Python raises on a missing dict key or an
out-of-range list subscript. -/

inductive PyError where
  | invalidParameterError (message : Option String) (error_code : Option Int)
  | valueError (message : String)
  | keyError (key : String)
  | indexError
deriving DecidableEq

/-! ### Caller input shapes and truthiness -/

inductive KeywordInput where
  | str (s : String)
  | strList (l : List String)
  | pairList (l : List (String × Int))
deriving DecidableEq

/-- Python truthiness of an optional string argument (`if task_id:`):
`None` and the empty string are falsy. -/
def pyTruthyStr : Option String → Bool
  | none => false
  | some s => !(s == "")

/-- Python falsiness of the `keyword` argument (`if not keyword:`):
absent, empty string, or empty list. -/
def kwFalsy : Option KeywordInput → Bool
  | none => true
  | some (KeywordInput.str s) => s == ""
  | some (KeywordInput.strList l) => l.isEmpty
  | some (KeywordInput.pairList l) => l.isEmpty

/-- After `if isinstance(keyword, str): keyword = [keyword]`, the branch on
`isinstance(keyword[0], tuple)` sees either a list of strings or a list
of pairs. -/
inductive KwNorm where
  | strs (l : List String)
  | pairs (l : List (String × Int))
deriving DecidableEq

def kwNormalize : Option KeywordInput → KwNorm
  | some (KeywordInput.pairList l) => KwNorm.pairs l
  | some (KeywordInput.str s) => KwNorm.strs [s]
  | some (KeywordInput.strList l) => KwNorm.strs l
  | none => KwNorm.strs []

/-! ### Requests (the pre-network phase of each operation)

Each public operation first validates its arguments and builds the URL
and payload; only then does it touch the network.  `Request` is the
single GET or POST the operation would issue; a plan that returns an
error issues no request at all. -/

inductive Request where
  | get (url : String)
  | post (url : String) (body : List Dict)
deriving DecidableEq

/-- Diagnostics printed to stdout along the way (modelled structurally,
not as formatted text). -/
inductive Diag where
  | droppedCount (n : Nat)
  | totalCost (c : Int)
  | costFailed
deriving DecidableEq

/-- serp payload defaults for one keyword (client.py lines 121-150);
`{**defaults, **kwargs}` merges caller overrides on top. -/
def serpDefaults (kw : String) (loc : Int) : Dict :=
  [ ("keyword", Value.s kw), ("location_code", Value.i loc),
    ("language_code", Value.s "en"), ("device", Value.s "desktop"),
    ("os", Value.s "windows"), ("depth", Value.i 100) ]

/-- client.py, `DataForSEOClient.serp`, pre-network phase: task-retrieval
GET when `task_id` is truthy; `ValueError` when the keyword is falsy;
otherwise a POST of one payload element per keyword to the live or
task_post URL. -/
def serpPlan (api_url : String) (keyword : Option KeywordInput) (location_code : Int)
    (live : Bool) (task_id : Option String) (kwargs : Dict) : Except PyError Request :=
  if pyTruthyStr task_id then
    Except.ok (Request.get
      (api_url ++ "serp/google/organic/task_get/advanced/" ++ task_id.getD ""))
  else if kwFalsy keyword then
    Except.error (PyError.valueError "You must provide a keyword or list of keywords.")
  else
    let url := if live then api_url ++ "serp/google/organic/live/advanced"
               else api_url ++ "serp/google/organic/task_post"
    match kwNormalize keyword with
    | KwNorm.pairs ps =>
        Except.ok (Request.post url
          (ps.map (fun kw => dictMerge (serpDefaults kw.1 kw.2) kwargs)))
    | KwNorm.strs ss =>
        Except.ok (Request.post url
          (ss.map (fun kw => dictMerge (serpDefaults kw location_code) kwargs)))

/-! ### msv builder: sanitize, then group by location code -/

/-- One batched volume-lookup unit: all surviving keywords destined for
one location code. -/
structure MsvGroup where
  keywords : List String
  location_code : Int
deriving DecidableEq

/-- client.py lines 243-248: pairs whose keyword passes the sanitizer. -/
def msvCleanPairs (kws : List (String × Int)) : List (String × Int) :=
  kws.filter (fun kw => !contains_invalid_chars kw.1)

/-- client.py lines 249-260: one group per element of
`set(location codes of the surviving pairs)`, carrying the keywords of
the surviving pairs with that code.  A CPython set of ints iterates in
an order fully determined by the inserted values, so the set is
modelled by the deterministic `List.dedup`; no claim below depends on
which deterministic order is chosen. -/
def msvGroupPairs (kws : List (String × Int)) : List MsvGroup :=
  ((msvCleanPairs kws).map Prod.snd).dedup.map (fun loc =>
    { keywords := ((msvCleanPairs kws).filter (fun kw => kw.2 == loc)).map Prod.fst,
      location_code := loc })

/-- client.py line 262: the plain-string path keeps the keywords that
pass the sanitizer. -/
def msvCleanStrs (kws : List String) : List String :=
  kws.filter (fun kw => !contains_invalid_chars kw)

/-- client.py line 264, pairs path: `len(keyword) - len(clean_keywords)`
where `clean_keywords` has already been REASSIGNED to the grouped list,
so this is input length minus the number of location groups. -/
def msvDroppedPairs (ps : List (String × Int)) : Nat :=
  ps.length - (msvGroupPairs ps).length

/-- client.py line 264, plain-string path: input length minus surviving
length. -/
def msvDroppedStrs (ss : List String) : Nat :=
  ss.length - (msvCleanStrs ss).length

/-- msv payload defaults for one location group (pairs path). -/
def msvDefaultsPairs (g : MsvGroup) (date_from date_to : Option String) : Dict :=
  [ ("keywords", Value.strings g.keywords), ("location_code", Value.i g.location_code),
    ("language_code", Value.s "en"), ("date_from", optStrVal date_from),
    ("date_to", optStrVal date_to) ]

/-- msv payload defaults for the single group of the plain-string path. -/
def msvDefaultsStrs (clean : List String) (loc : Int) (date_from date_to : Option String) : Dict :=
  [ ("keywords", Value.strings clean), ("location_code", Value.i loc),
    ("language_code", Value.s "en"), ("date_from", optStrVal date_from),
    ("date_to", optStrVal date_to) ]

/-- client.py lines 271-284: one payload element per location group. -/
def msvPayloadPairs (ps : List (String × Int)) (date_from date_to : Option String)
    (kwargs : Dict) : List Dict :=
  (msvGroupPairs ps).map (fun g => dictMerge (msvDefaultsPairs g date_from date_to) kwargs)

/-- client.py lines 285-297: the plain-string path always builds a
one-element payload, whatever the sanitizer left over. -/
def msvPayloadStrs (ss : List String) (location_code : Int)
    (date_from date_to : Option String) (kwargs : Dict) : List Dict :=
  [dictMerge (msvDefaultsStrs (msvCleanStrs ss) location_code date_from date_to) kwargs]

/-- client.py, `DataForSEOClient.msv`, pre-network phase.  Returns the
request together with the dropped-count diagnostic (printed only when
the walrus-assigned count is nonzero). -/
def msvPlan (api_url : String) (keyword : Option KeywordInput) (location_code : Int)
    (date_from date_to : Option String) (live : Bool) (task_id : Option String)
    (kwargs : Dict) : Except PyError (Request × List Diag) :=
  if pyTruthyStr task_id then
    Except.ok (Request.get
      (api_url ++ "keywords_data/google_ads/search_volume/task_get/" ++ task_id.getD ""), [])
  else if kwFalsy keyword then
    Except.error (PyError.valueError "You must provide a keyword or list of keywords.")
  else
    let url := if live then api_url ++ "keywords_data/google_ads/search_volume/live"
               else api_url ++ "keywords_data/google_ads/search_volume/task_post"
    match kwNormalize keyword with
    | KwNorm.pairs ps =>
        let diags := if msvDroppedPairs ps == 0 then [] else [Diag.droppedCount (msvDroppedPairs ps)]
        Except.ok (Request.post url (msvPayloadPairs ps date_from date_to kwargs), diags)
    | KwNorm.strs ss =>
        let diags := if msvDroppedStrs ss == 0 then [] else [Diag.droppedCount (msvDroppedStrs ss)]
        Except.ok (Request.post url (msvPayloadStrs ss location_code date_from date_to kwargs), diags)

/-! ### keywords_for_site plan -/

inductive SiteInput where
  | str (s : String)
  | strList (l : List String)
deriving DecidableEq

def siteFalsy : Option SiteInput → Bool
  | none => true
  | some (SiteInput.str s) => s == ""
  | some (SiteInput.strList l) => l.isEmpty

def siteNormalize : Option SiteInput → List String
  | some (SiteInput.str s) => [s]
  | some (SiteInput.strList l) => l
  | none => []

def kfsDefaults (target : String) (loc : Int) (date_from date_to : Option String) : Dict :=
  [ ("target", Value.s target), ("location_code", Value.i loc),
    ("date_from", optStrVal date_from), ("date_to", optStrVal date_to) ]

/-- client.py, `DataForSEOClient.keywords_for_site`, pre-network phase. -/
def kfsPlan (api_url : String) (site : Option SiteInput) (location_code : Int)
    (date_from date_to : Option String) (live : Bool) (task_id : Option String)
    (kwargs : Dict) : Except PyError Request :=
  if pyTruthyStr task_id then
    Except.ok (Request.get
      (api_url ++ "keywords_data/google_ads/keywords_for_site/task_get/" ++ task_id.getD ""))
  else if siteFalsy site then
    Except.error (PyError.valueError "You must provide a site or list of sites.")
  else
    let url := if live then api_url ++ "keywords_data/google_ads/keywords_for_site/live"
               else api_url ++ "keywords_data/google_ads/keywords_for_site/task_post"
    Except.ok (Request.post url
      ((siteNormalize site).map (fun s => dictMerge (kfsDefaults s location_code date_from date_to) kwargs)))

/-! ### Response envelopes (the post-network phase)

The decoded JSON reply.  `tasks_error` is always read by the code
(subscript, assumed present); `tasks` may be absent (`Option`), and
each task entry's fields read with `.get(...)` or guarded subscripts
are `Option`s.  The per-task `result` payload is opaque to the
normalizers, so the envelope is polymorphic in its type `ρ`; `cost` is
`none` when absent or not summable. -/

structure TaskData where
  keyword : Option String := none
  keywords : Option (List String) := none
  target : Option String := none
  location_code : Option Int := none
deriving DecidableEq

structure TaskEntry (ρ : Type) where
  id : Option String := none
  status_message : Option String := none
  status_code : Option Int := none
  cost : Option Int := none
  data : Option TaskData := none
  result : Option ρ := none
deriving DecidableEq

structure Envelope (ρ : Type) where
  tasks_error : Int
  tasks : Option (List (TaskEntry ρ)) := none
deriving DecidableEq

/-- Python subscript / attribute access on a possibly-missing key. -/
def pyGet {α : Type} (o : Option α) (k : String) : Except PyError α :=
  match o with
  | none => Except.error (PyError.keyError k)
  | some v => Except.ok v

/-- The exception raised by
`InvalidParameterError(tasks[0].get("status_message"), error_code=tasks[0].get("status_code"))`:
`KeyError` when the envelope has no tasks key, `IndexError` when the
tasks array is empty, and the typed error otherwise. -/
def envFirstTaskError {ρ : Type} (env : Envelope ρ) : PyError :=
  match env.tasks with
  | none => PyError.keyError "tasks"
  | some [] => PyError.indexError
  | some (t :: _) => PyError.invalidParameterError t.status_message t.status_code

/-- `sum([item["cost"] for item in tasks])`: `some` of the sum when every
entry has a summable cost, else `none` (the comprehension raised). -/
def sumCosts {ρ : Type} : List (TaskEntry ρ) → Option Int
  | [] => some 0
  | t :: ts =>
      match t.cost, sumCosts ts with
      | some c, some s => some (c + s)
      | _, _ => none

/-- The debug block: `try: print(total cost) except: print(fallback)` —
every exception inside is swallowed and turned into the fallback line. -/
def costDiag {ρ : Type} (env : Envelope ρ) : Diag :=
  match env.tasks with
  | none => Diag.costFailed
  | some l =>
      match sumCosts l with
      | none => Diag.costFailed
      | some c => Diag.totalCost c

/-! ### Task-retrieval normalizers -/

/-- client.py lines 90-108 (serp task_get path after the GET): raise on
`tasks_error > 0`, optionally print the cost diagnostic, then
`tasks[0]["result"] if "tasks" in json_response else None`. -/
def serpTaskGetNormalize {ρ : Type} (debug : Bool) (env : Envelope ρ) :
    Except PyError (Option ρ) × List Diag :=
  if env.tasks_error > 0 then
    (Except.error (envFirstTaskError env), [])
  else
    let diags := if debug then [costDiag env] else []
    match env.tasks with
    | none => (Except.ok none, diags)
    | some [] => (Except.error PyError.indexError, diags)
    | some (t :: _) =>
        match t.result with
        | none => (Except.error (PyError.keyError "result"), diags)
        | some r => (Except.ok (some r), diags)

/-- client.py lines 208-235 (msv task_get path): identical normalization
to the serp retrieval path. -/
def msvTaskGetNormalize {ρ : Type} (debug : Bool) (env : Envelope ρ) :
    Except PyError (Option ρ) × List Diag :=
  if env.tasks_error > 0 then
    (Except.error (envFirstTaskError env), [])
  else
    let diags := if debug then [costDiag env] else []
    match env.tasks with
    | none => (Except.ok none, diags)
    | some [] => (Except.error PyError.indexError, diags)
    | some (t :: _) =>
        match t.result with
        | none => (Except.error (PyError.keyError "result"), diags)
        | some r => (Except.ok (some r), diags)

/-- client.py lines 354-371 (keywords_for_site task_get path): same
retrieval normalization, but the method has no debug parameter. -/
def kfsTaskGetNormalize {ρ : Type} (env : Envelope ρ) :
    Except PyError (Option ρ) × List Diag :=
  if env.tasks_error > 0 then
    (Except.error (envFirstTaskError env), [])
  else
    match env.tasks with
    | none => (Except.ok none, [])
    | some [] => (Except.error PyError.indexError, [])
    | some (t :: _) =>
        match t.result with
        | none => (Except.error (PyError.keyError "result"), [])
        | some r => (Except.ok (some r), [])

/-! ### Post-response normalizers (live and task-creation modes) -/

structure SerpTaskRecord where
  task_id : String
  keyword : String
  location_code : Int
deriving DecidableEq

structure MsvTaskRecord where
  task_id : String
  keywords : List String
  location_code : Int
deriving DecidableEq

structure KfsTaskRecord where
  task_id : String
  target : String
  location_code : Int
deriving DecidableEq

/-- A Python list comprehension whose element expression may raise:
elements are produced in order and the first exception propagates. -/
def mapExcept {α β : Type} (f : α → Except PyError β) : List α → Except PyError (List β)
  | [] => Except.ok []
  | a :: as =>
      match f a with
      | Except.error e => Except.error e
      | Except.ok b =>
          match mapExcept f as with
          | Except.error e => Except.error e
          | Except.ok bs => Except.ok (b :: bs)

/-- `{"task_id": task["id"], "keyword": task["data"]["keyword"],
"location_code": task["data"]["location_code"]}` with Python subscript
semantics. -/
def serpRecordOfTask {ρ : Type} (t : TaskEntry ρ) : Except PyError SerpTaskRecord := do
  let i ← pyGet t.id "id"
  let d ← pyGet t.data "data"
  let kw ← pyGet d.keyword "keyword"
  let lc ← pyGet d.location_code "location_code"
  return { task_id := i, keyword := kw, location_code := lc }

def msvRecordOfTask {ρ : Type} (t : TaskEntry ρ) : Except PyError MsvTaskRecord := do
  let i ← pyGet t.id "id"
  let d ← pyGet t.data "data"
  let kws ← pyGet d.keywords "keywords"
  let lc ← pyGet d.location_code "location_code"
  return { task_id := i, keywords := kws, location_code := lc }

def kfsRecordOfTask {ρ : Type} (t : TaskEntry ρ) : Except PyError KfsTaskRecord := do
  let i ← pyGet t.id "id"
  let d ← pyGet t.data "data"
  let tg ← pyGet d.target "target"
  let lc ← pyGet d.location_code "location_code"
  return { task_id := i, target := tg, location_code := lc }

/-- Live mode returns the envelope unchanged; task-creation mode returns
the condensed records in the order the remote side returned the tasks. -/
inductive SerpOutput (ρ : Type) where
  | envelope (e : Envelope ρ)
  | records (l : List SerpTaskRecord)
deriving DecidableEq

inductive MsvOutput (ρ : Type) where
  | envelope (e : Envelope ρ)
  | records (l : List MsvTaskRecord)
deriving DecidableEq

inductive KfsOutput (ρ : Type) where
  | envelope (e : Envelope ρ)
  | records (l : List KfsTaskRecord)
deriving DecidableEq

/-- client.py lines 153-180 (serp after the POST): raise on
`tasks_error > 0`; optionally print the cost diagnostic; return the raw
envelope when live, else the condensed task records. -/
def serpPostNormalize {ρ : Type} (live debug : Bool) (env : Envelope ρ) :
    Except PyError (SerpOutput ρ) × List Diag :=
  if env.tasks_error > 0 then
    (Except.error (envFirstTaskError env), [])
  else
    let diags := if debug then [costDiag env] else []
    if live then
      (Except.ok (SerpOutput.envelope env), diags)
    else
      match env.tasks with
      | none => (Except.error (PyError.keyError "tasks"), diags)
      | some l =>
          match mapExcept serpRecordOfTask l with
          | Except.error e => (Except.error e, diags)
          | Except.ok recs => (Except.ok (SerpOutput.records recs), diags)

/-- client.py lines 300-327 (msv after the POST). -/
def msvPostNormalize {ρ : Type} (live debug : Bool) (env : Envelope ρ) :
    Except PyError (MsvOutput ρ) × List Diag :=
  if env.tasks_error > 0 then
    (Except.error (envFirstTaskError env), [])
  else
    let diags := if debug then [costDiag env] else []
    if live then
      (Except.ok (MsvOutput.envelope env), diags)
    else
      match env.tasks with
      | none => (Except.error (PyError.keyError "tasks"), diags)
      | some l =>
          match mapExcept msvRecordOfTask l with
          | Except.error e => (Except.error e, diags)
          | Except.ok recs => (Except.ok (MsvOutput.records recs), diags)

/-- client.py lines 396-413 (keywords_for_site after the POST; the method
has no debug parameter). -/
def kfsPostNormalize {ρ : Type} (live : Bool) (env : Envelope ρ) :
    Except PyError (KfsOutput ρ) × List Diag :=
  if env.tasks_error > 0 then
    (Except.error (envFirstTaskError env), [])
  else
    if live then
      (Except.ok (KfsOutput.envelope env), [])
    else
      match env.tasks with
      | none => (Except.error (PyError.keyError "tasks"), [])
      | some l =>
          match mapExcept kfsRecordOfTask l with
          | Except.error e => (Except.error e, [])
          | Except.ok recs => (Except.ok (KfsOutput.records recs), [])

/-! ## Theorems about the claims -/

/-- C1: whenever the decoded envelope reports `tasks_error > 0` (and, as
the claim presumes, a first task entry exists), every operation in
every mode fails with `InvalidParameterError` carrying exactly the
first entry's `status_message` as message and its `status_code` as
error code, and produces no normal output.  The statement quantifies
over the result type and the whole envelope, so the outcome is
independent of every task's `result` field: no result is read. -/
theorem remote_task_error_first_task {ρ : Type} (env : Envelope ρ)
    (t : TaskEntry ρ) (ts : List (TaskEntry ρ)) (live debug : Bool)
    (htasks : env.tasks = some (t :: ts)) (herr : env.tasks_error > 0) :
    (serpTaskGetNormalize debug env).1
        = Except.error (PyError.invalidParameterError t.status_message t.status_code) ∧
    (serpPostNormalize live debug env).1
        = Except.error (PyError.invalidParameterError t.status_message t.status_code) ∧
    (msvTaskGetNormalize debug env).1
        = Except.error (PyError.invalidParameterError t.status_message t.status_code) ∧
    (msvPostNormalize live debug env).1
        = Except.error (PyError.invalidParameterError t.status_message t.status_code) ∧
    (kfsTaskGetNormalize env).1
        = Except.error (PyError.invalidParameterError t.status_message t.status_code) ∧
    (kfsPostNormalize live env).1
        = Except.error (PyError.invalidParameterError t.status_message t.status_code) := by
  have h1 : envFirstTaskError env
      = PyError.invalidParameterError t.status_message t.status_code := by
    simp [envFirstTaskError, htasks]
  refine ⟨?_, ?_, ?_, ?_, ?_, ?_⟩ <;>
    simp [serpTaskGetNormalize, serpPostNormalize, msvTaskGetNormalize,
          msvPostNormalize, kfsTaskGetNormalize, kfsPostNormalize, herr, h1]

def c1Env : Envelope Nat :=
  { tasks_error := 1,
    tasks := some [{ status_message := some "Invalid Field: foo",
                     status_code := some 40501 }] }

/-- C1 witness: a concrete failing envelope hits the typed error in a
retrieval and a post normalizer. -/
theorem remote_task_error_first_task_witness :
    (serpTaskGetNormalize false c1Env).1
        = Except.error (PyError.invalidParameterError (some "Invalid Field: foo") (some 40501)) ∧
    (serpPostNormalize true false c1Env).1
        = Except.error (PyError.invalidParameterError (some "Invalid Field: foo") (some 40501)) ∧
    (msvTaskGetNormalize false c1Env).1
        = Except.error (PyError.invalidParameterError (some "Invalid Field: foo") (some 40501)) ∧
    (msvPostNormalize true false c1Env).1
        = Except.error (PyError.invalidParameterError (some "Invalid Field: foo") (some 40501)) ∧
    (kfsTaskGetNormalize c1Env).1
        = Except.error (PyError.invalidParameterError (some "Invalid Field: foo") (some 40501)) ∧
    (kfsPostNormalize true c1Env).1
        = Except.error (PyError.invalidParameterError (some "Invalid Field: foo") (some 40501)) :=
  remote_task_error_first_task c1Env
    { status_message := some "Invalid Field: foo", status_code := some 40501 }
    [] true false rfl (by decide)

/-- C2: for a pair-sequence input, the volume-lookup builder emits
exactly one payload group per distinct location code among the entries
surviving sanitization, and each group's keyword list is all and only
the surviving keywords whose pair carried that code. -/
theorem msv_pair_grouping (kws : List (String × Int)) :
    (msvGroupPairs kws).length = ((msvCleanPairs kws).map Prod.snd).dedup.length
    ∧ ((msvGroupPairs kws).map MsvGroup.location_code).Nodup
    ∧ (∀ g ∈ msvGroupPairs kws,
        g.keywords = ((msvCleanPairs kws).filter (fun p => p.2 == g.location_code)).map Prod.fst)
    ∧ (∀ loc : Int,
        (∃ g ∈ msvGroupPairs kws, g.location_code = loc)
          ↔ loc ∈ (msvCleanPairs kws).map Prod.snd) := by
  refine ⟨?_, ?_, ?_, ?_⟩
  · simp [msvGroupPairs]
  · simp only [msvGroupPairs, List.map_map]
    have hcomp : (MsvGroup.location_code ∘ fun loc =>
        ({ keywords := ((msvCleanPairs kws).filter (fun kw => kw.2 == loc)).map Prod.fst,
           location_code := loc } : MsvGroup)) = id := rfl
    rw [hcomp, List.map_id]
    exact List.nodup_dedup ((msvCleanPairs kws).map Prod.snd)
  · intro g hg
    simp only [msvGroupPairs, List.mem_map] at hg
    obtain ⟨loc, hloc, rfl⟩ := hg
    rfl
  · intro loc
    constructor
    · rintro ⟨g, hg, rfl⟩
      simp only [msvGroupPairs, List.mem_map] at hg
      obtain ⟨l, hl, rfl⟩ := hg
      simpa using List.mem_dedup.mp hl
    · intro hl
      refine ⟨{ keywords := ((msvCleanPairs kws).filter (fun p => p.2 == loc)).map Prod.fst,
                location_code := loc }, ?_, rfl⟩
      simp only [msvGroupPairs, List.mem_map]
      exact ⟨loc, List.mem_dedup.mpr hl, rfl⟩

/-- C2 witness: on `[("a",1),("b",2),("c",1)]` the group at location 1
carries exactly `["a","c"]`. -/
theorem msv_pair_grouping_witness :
    ({ keywords := ["a","c"], location_code := 1 } : MsvGroup).keywords =
      ((msvCleanPairs [("a",(1:Int)),("b",2),("c",1)]).filter
        (fun p => p.2 == ({ keywords := ["a","c"], location_code := 1 } : MsvGroup).location_code)).map
        Prod.fst :=
  (msv_pair_grouping [("a",(1:Int)),("b",2),("c",1)]).2.2.1
    { keywords := ["a","c"], location_code := 1 } (by decide)

/-- C3: the keyword sanitizer returns true exactly when some character
of the input lies in the fixed denylist of Unicode ranges; in
particular any string containing the exclamation mark (U+0021) is
rejected.  As a Lean function it is pure and deterministic by
construction. -/
theorem contains_invalid_chars_characterization (s : String) :
    (contains_invalid_chars s = true ↔ ∃ c, c ∈ s.data ∧ charInDenylist c = true) ∧
    ('!' ∈ s.data → contains_invalid_chars s = true) := by
  constructor
  · exact List.any_eq_true
  · intro h
    exact List.any_eq_true.mpr ⟨'!', h, by decide⟩

/-- C3 witness: the scenario string containing an exclamation mark. -/
theorem contains_invalid_chars_characterization_witness :
    ('!' ∈ "a!".data) ∧ contains_invalid_chars "a!" = true :=
  ⟨by decide, (contains_invalid_chars_characterization "a!").2 (by decide)⟩

/-- C4 (code bug evaluation): on the pair input `[("a",1),("b",1)]` no
entry is invalid — the sanitizer keeps both pairs — yet the code's
dropped-count diagnostic, computed as input length minus the length of
the REGROUPED list (client.py line 264 runs after `clean_keywords` was
reassigned to the location groups on lines 250-260), reports 1 dropped
keyword. -/
theorem msv_dropped_count_bug_eval :
    msvDroppedPairs [("a", (1:Int)), ("b", 1)] = 1 ∧
    msvCleanPairs [("a", (1:Int)), ("b", 1)] = [("a", (1:Int)), ("b", 1)] := by
  decide

/-- C5 counterexample: on `[("a!",1)]` the sole identifier of location 1
is sanitized away and the builder emits NO group for location 1 —
contradicting the claim that the group is still emitted with an empty
identifier set. -/
theorem msv_fully_sanitized_group_omitted_cex :
    contains_invalid_chars "a!" = true ∧ msvGroupPairs [("a!", (1:Int))] = [] := by
  decide

/-- C5 amended: in the pair-sequence path a location all of whose
surviving entries vanish is omitted entirely (no group carries that
code); only in the plain-string path is the single payload group
emitted regardless, with the possibly-empty sanitized keyword list. -/
theorem msv_fully_sanitized_group_behavior (kws : List (String × Int)) (loc : Int)
    (ss : List String) (location_code : Int) (date_from date_to : Option String)
    (kwargs : Dict) (h : ∀ p ∈ msvCleanPairs kws, p.2 ≠ loc) :
    (∀ g ∈ msvGroupPairs kws, g.location_code ≠ loc) ∧
    (msvPayloadStrs ss location_code date_from date_to kwargs).length = 1 := by
  constructor
  · intro g hg
    simp only [msvGroupPairs, List.mem_map] at hg
    obtain ⟨l, hl, rfl⟩ := hg
    intro hcontra
    have hmem := List.mem_dedup.mp hl
    simp only [List.mem_map] at hmem
    obtain ⟨p, hp, hpl⟩ := hmem
    exact h p hp (by rw [hpl]; exact hcontra)
  · rfl

/-- C5 amended witness: all-invalid plain-string input still yields a
one-element payload. -/
theorem msv_fully_sanitized_group_behavior_witness :
    (msvPayloadStrs ["a!"] 2840 none none []).length = 1 :=
  (msv_fully_sanitized_group_behavior [("a!", (1:Int))] 1 ["a!"] 2840 none none []
    (by decide)).2

/-- C6: the scenario call serp(keyword="widget", location_code=2840,
live=True) plans a POST of the single default payload group to the
live search path, and when the envelope reports no task errors the
live normalizer returns the decoded envelope unmodified. -/
theorem serp_live_widget_scenario {ρ : Type} (api_url : String) (env : Envelope ρ)
    (debug : Bool) (h : env.tasks_error = 0) :
    serpPlan api_url (some (KeywordInput.str "widget")) 2840 true none [] =
      Except.ok (Request.post (api_url ++ "serp/google/organic/live/advanced")
        [[ ("keyword", Value.s "widget"), ("location_code", Value.i 2840),
           ("language_code", Value.s "en"), ("device", Value.s "desktop"),
           ("os", Value.s "windows"), ("depth", Value.i 100) ]]) ∧
    (serpPostNormalize true debug env).1 = Except.ok (SerpOutput.envelope env) := by
  refine ⟨rfl, ?_⟩
  simp [serpPostNormalize, h]

/-- C6 witness: the production base URL and a concrete clean envelope. -/
theorem serp_live_widget_scenario_witness :
    serpPlan "https://api.dataforseo.com/v3/" (some (KeywordInput.str "widget")) 2840 true none [] =
      Except.ok (Request.post
        ("https://api.dataforseo.com/v3/" ++ "serp/google/organic/live/advanced")
        [[ ("keyword", Value.s "widget"), ("location_code", Value.i 2840),
           ("language_code", Value.s "en"), ("device", Value.s "desktop"),
           ("os", Value.s "windows"), ("depth", Value.i 100) ]]) ∧
    (serpPostNormalize true false ({ tasks_error := 0, tasks := none } : Envelope Nat)).1
      = Except.ok (SerpOutput.envelope { tasks_error := 0, tasks := none }) :=
  serp_live_widget_scenario "https://api.dataforseo.com/v3/"
    { tasks_error := 0, tasks := none } false rfl

/-- C7: with a falsy (absent or empty) query and a falsy task id, every
operation's pre-network phase fails with the `ValueError` — no request
is produced, hence no POST or GET is issued. -/
theorem empty_query_raises_before_network (api_url : String)
    (keyword : Option KeywordInput) (site : Option SiteInput) (location_code : Int)
    (date_from date_to : Option String) (live : Bool) (task_id : Option String)
    (kwargs : Dict) (htid : pyTruthyStr task_id = false)
    (hkw : kwFalsy keyword = true) (hsite : siteFalsy site = true) :
    serpPlan api_url keyword location_code live task_id kwargs =
      Except.error (PyError.valueError "You must provide a keyword or list of keywords.") ∧
    msvPlan api_url keyword location_code date_from date_to live task_id kwargs =
      Except.error (PyError.valueError "You must provide a keyword or list of keywords.") ∧
    kfsPlan api_url site location_code date_from date_to live task_id kwargs =
      Except.error (PyError.valueError "You must provide a site or list of sites.") := by
  refine ⟨?_, ?_, ?_⟩ <;> simp [serpPlan, msvPlan, kfsPlan, htid, hkw, hsite]

/-- C7 witness: absent query, absent task id. -/
theorem empty_query_raises_before_network_witness :
    serpPlan "https://api.dataforseo.com/v3/" none 2840 true none [] =
      Except.error (PyError.valueError "You must provide a keyword or list of keywords.") ∧
    msvPlan "https://api.dataforseo.com/v3/" none 2840 none none true none [] =
      Except.error (PyError.valueError "You must provide a keyword or list of keywords.") ∧
    kfsPlan "https://api.dataforseo.com/v3/" none 2840 none none true none [] =
      Except.error (PyError.valueError "You must provide a site or list of sites.") :=
  empty_query_raises_before_network "https://api.dataforseo.com/v3/" none none 2840
    none none true none [] rfl rfl rfl

/-- C8: the request builders are deterministic — equal query inputs
(including pair sequences routed through the location grouping, whose
CPython set iteration over equal int insertion sequences is itself
deterministic, modelled here by a fixed dedup) produce equal plans in
the same order. -/
theorem request_builder_deterministic (api_url : String) (k1 k2 : Option KeywordInput)
    (location_code : Int) (date_from date_to : Option String) (live : Bool)
    (task_id : Option String) (kwargs : Dict) (h : k1 = k2) :
    serpPlan api_url k1 location_code live task_id kwargs
      = serpPlan api_url k2 location_code live task_id kwargs ∧
    msvPlan api_url k1 location_code date_from date_to live task_id kwargs
      = msvPlan api_url k2 location_code date_from date_to live task_id kwargs := by
  subst h
  exact ⟨rfl, rfl⟩

/-- C8 witness: a pair sequence with duplicate location codes builds the
same grouped payload twice. -/
theorem request_builder_deterministic_witness :
    serpPlan "" (some (KeywordInput.pairList [("a",1),("b",2),("c",1)])) 2840 true none []
      = serpPlan "" (some (KeywordInput.pairList [("a",1),("b",2),("c",1)])) 2840 true none [] ∧
    msvPlan "" (some (KeywordInput.pairList [("a",1),("b",2),("c",1)])) 2840 none none true none []
      = msvPlan "" (some (KeywordInput.pairList [("a",1),("b",2),("c",1)])) 2840 none none true none [] :=
  request_builder_deterministic "" (some (KeywordInput.pairList [("a",1),("b",2),("c",1)]))
    (some (KeywordInput.pairList [("a",1),("b",2),("c",1)])) 2840 none none true none [] rfl

/-- C9: enabling the debug cost diagnostic never changes the primary
outcome — error or value — of any serp or msv normalizer on any
envelope, including envelopes where the cost computation fails
(missing tasks, missing or malformed cost fields). -/
theorem debug_cost_diag_noninterference {ρ : Type} (env : Envelope ρ) (live : Bool) :
    (serpTaskGetNormalize true env).1 = (serpTaskGetNormalize false env).1 ∧
    (msvTaskGetNormalize true env).1 = (msvTaskGetNormalize false env).1 ∧
    (serpPostNormalize live true env).1 = (serpPostNormalize live false env).1 ∧
    (msvPostNormalize live true env).1 = (msvPostNormalize live false env).1 := by
  refine ⟨?_, ?_, ?_, ?_⟩
  · unfold serpTaskGetNormalize
    split
    · rfl
    · cases henv : env.tasks with
      | none => rfl
      | some l =>
        cases l with
        | nil => rfl
        | cons t ts => cases h : t.result <;> simp [h]
  · unfold msvTaskGetNormalize
    split
    · rfl
    · cases henv : env.tasks with
      | none => rfl
      | some l =>
        cases l with
        | nil => rfl
        | cons t ts => cases h : t.result <;> simp [h]
  · unfold serpPostNormalize
    split
    · rfl
    · cases live with
      | true => rfl
      | false =>
        cases henv : env.tasks with
        | none => rfl
        | some l => cases h : mapExcept serpRecordOfTask l <;> simp [h]
  · unfold msvPostNormalize
    split
    · rfl
    · cases live with
      | true => rfl
      | false =>
        cases henv : env.tasks with
        | none => rfl
        | some l => cases h : mapExcept msvRecordOfTask l <;> simp [h]

/-- C10: when `tasks_error > 0` but the envelope has no tasks key the
normalizers raise `KeyError`, when the tasks array is empty they raise
`IndexError`, and a successful retrieval envelope with an empty tasks
array also raises `IndexError` instead of the explicit no-result
signal — never the typed `InvalidParameterError`. -/
theorem missing_or_empty_tasks_untyped_error {ρ : Type} (env : Envelope ρ)
    (live debug : Bool) :
    (env.tasks = none → env.tasks_error > 0 →
      (serpTaskGetNormalize debug env).1 = Except.error (PyError.keyError "tasks") ∧
      (serpPostNormalize live debug env).1 = Except.error (PyError.keyError "tasks") ∧
      (msvTaskGetNormalize debug env).1 = Except.error (PyError.keyError "tasks") ∧
      (msvPostNormalize live debug env).1 = Except.error (PyError.keyError "tasks") ∧
      (kfsTaskGetNormalize env).1 = Except.error (PyError.keyError "tasks") ∧
      (kfsPostNormalize live env).1 = Except.error (PyError.keyError "tasks")) ∧
    (env.tasks = some [] → env.tasks_error > 0 →
      (serpTaskGetNormalize debug env).1 = Except.error PyError.indexError ∧
      (serpPostNormalize live debug env).1 = Except.error PyError.indexError ∧
      (msvTaskGetNormalize debug env).1 = Except.error PyError.indexError ∧
      (msvPostNormalize live debug env).1 = Except.error PyError.indexError ∧
      (kfsTaskGetNormalize env).1 = Except.error PyError.indexError ∧
      (kfsPostNormalize live env).1 = Except.error PyError.indexError) ∧
    (env.tasks = some [] → ¬ env.tasks_error > 0 →
      (serpTaskGetNormalize debug env).1 = Except.error PyError.indexError ∧
      (msvTaskGetNormalize debug env).1 = Except.error PyError.indexError ∧
      (kfsTaskGetNormalize env).1 = Except.error PyError.indexError) := by
  refine ⟨?_, ?_, ?_⟩
  · intro h1 h2
    refine ⟨?_, ?_, ?_, ?_, ?_, ?_⟩ <;>
      simp [serpTaskGetNormalize, serpPostNormalize, msvTaskGetNormalize,
            msvPostNormalize, kfsTaskGetNormalize, kfsPostNormalize,
            envFirstTaskError, h1, h2]
  · intro h1 h2
    refine ⟨?_, ?_, ?_, ?_, ?_, ?_⟩ <;>
      simp [serpTaskGetNormalize, serpPostNormalize, msvTaskGetNormalize,
            msvPostNormalize, kfsTaskGetNormalize, kfsPostNormalize,
            envFirstTaskError, h1, h2]
  · intro h1 h2
    refine ⟨?_, ?_, ?_⟩ <;>
      simp [serpTaskGetNormalize, msvTaskGetNormalize, kfsTaskGetNormalize, h1, h2]

def c10EnvNoTasks : Envelope Nat := { tasks_error := 2, tasks := none }

def c10EnvEmptyErr : Envelope Nat := { tasks_error := 2, tasks := some [] }

def c10EnvEmptyOk : Envelope Nat := { tasks_error := 0, tasks := some [] }

/-- C10 witness: the three degenerate envelopes each hit the untyped
error. -/
theorem missing_or_empty_tasks_untyped_error_witness :
    (serpTaskGetNormalize false c10EnvNoTasks).1 = Except.error (PyError.keyError "tasks") ∧
    (serpPostNormalize true false c10EnvEmptyErr).1 = Except.error PyError.indexError ∧
    (msvTaskGetNormalize false c10EnvEmptyOk).1 = Except.error PyError.indexError :=
  ⟨((missing_or_empty_tasks_untyped_error c10EnvNoTasks false false).1 rfl (by decide)).1,
   ((missing_or_empty_tasks_untyped_error c10EnvEmptyErr true false).2.1 rfl (by decide)).2.1,
   ((missing_or_empty_tasks_untyped_error c10EnvEmptyOk false false).2.2 rfl (by decide)).2.1⟩

end DataForSEO
